import Mathlib

/-!
Shallow embedding of `rust_src/src/webrender_backend/font.rs` (the remacs
webrender font driver) and proofs about its font-resolution and
glyph-metrics behaviour.

Modelling conventions:
* `f32` arithmetic is modelled exactly over `ℚ`; Rust `as i32` on a float
  truncates toward zero and saturates, `f32::round` rounds half away from
  zero, `i64 as i32` and `i32 as i16` wrap two's-complement — each cast is
  an explicit function below.
* The external `font_kit` capabilities (`SystemSource`, handles, loaded
  fonts) are records of abstract functions, mirroring the accessors the
  driver calls.
* Lisp runtime calls (`Fassoc`/`Fcdr` over the `extra` association list)
  are modelled with `List.lookup`; the non-returning `error!` signal is
  modelled as `Except.error`, and a Rust panic (`unwrap`/`expect` on a
  failed external call) likewise surfaces as an `Except.error` with a
  distinct message, at the same program point.
* Webrender key allocation (`output.add_font`) is modelled as a counter
  `backend : ℕ` naming the next fresh `FontKey`; `open_` threads it
  explicitly and returns the final counter.
-/

namespace Remacs

/-- Rust float-to-int truncation toward zero, on the exact rational model. -/
def ratTrunc (q : ℚ) : ℤ :=
  if 0 ≤ q then ⌊q⌋ else ⌈q⌉

/-- Rust `f32::round`: round half away from zero, on the exact rational model. -/
def ratRound (q : ℚ) : ℤ :=
  if 0 ≤ q then ⌊q + 1 / 2⌋ else ⌈q - 1 / 2⌉

/-- Saturation of an integer into the signed 32-bit range, as Rust float-to-int
`as` casts do. -/
def i32Sat (z : ℤ) : ℤ :=
  max (-(2 ^ 31)) (min (2 ^ 31 - 1) z)

/-- Rust `x as i32` applied to an `f32` value: truncate toward zero, saturating. -/
def f32_as_i32 (q : ℚ) : ℤ :=
  i32Sat (ratTrunc q)

/-- Rust `x.round() as i32` applied to an `f32` value: round half away from
zero, then saturate into the `i32` range. -/
def f32_round_as_i32 (q : ℚ) : ℤ :=
  i32Sat (ratRound q)

/-- Rust `x as i32` applied to an `i64` value: two's-complement wrap. -/
def i64_as_i32 (z : ℤ) : ℤ :=
  (z + 2 ^ 31) % 2 ^ 32 - 2 ^ 31

/-- Rust `x as i16` applied to an `i32` value: two's-complement wrap. -/
def i32_as_i16 (z : ℤ) : ℤ :=
  (z + 2 ^ 15) % 2 ^ 16 - 2 ^ 15

/-- Rust `c as u32` applied to an `i32` value: two's-complement reinterpretation. -/
def i32_as_u32 (z : ℤ) : ℕ :=
  (z % 2 ^ 32).toNat

/-- `font_kit::family_name::FamilyName`: the five generic classes plus a
literal family title. -/
inductive FamilyName where
  | Serif : FamilyName
  | SansSerif : FamilyName
  | Monospace : FamilyName
  | Cursive : FamilyName
  | Fantasy : FamilyName
  | Title : String → FamilyName
deriving DecidableEq

/-- `font_kit::metrics::Metrics`: the design-space metrics the driver reads.
`units_per_em` is a `u32`; the signed metrics are `f32`, modelled exactly. -/
structure Metrics where
  units_per_em : ℕ
  ascent : ℚ
  descent : ℚ
  line_gap : ℚ

/-- A 2-d advance vector (`Vector2F`), modelled exactly. -/
structure Vec2 where
  x : ℚ
  y : ℚ

/-- A loaded `font_kit` font resource: the accessors the driver calls.
`advance` and `glyph_for_char` are the external lookup capabilities;
characters are modelled by their scalar values. -/
structure Font where
  family_name : String
  full_name : String
  postscript_name : Option String
  metrics : Metrics
  advance : ℕ → Option Vec2
  glyph_for_char : ℕ → Option ℕ

/-- A `font_kit` handle as returned by the system source; `load` is the
`handle.load().ok()` step (`none` models a load failure). -/
structure FontHandle where
  load : Option Font

/-- The system font search capability (`font_kit::source::SystemSource`):
`select_best_match` with default properties, keyed by the single family
pattern the driver passes, and `select_by_postscript_name`.  `Option`
results model the `Result::ok()` conversions in the driver. -/
structure SystemSource where
  select_best_match : FamilyName → Option FontHandle
  select_by_postscript_name : String → Option FontHandle

/-- A font-spec / font-entity Lisp vector (`LispFontLike`), restricted to the
indices the driver reads or writes: `FONT_FAMILY_INDEX` (a symbol or string,
or nil), `FONT_NAME_INDEX`, `FONT_SIZE_INDEX` (a fixnum, or nil) and
`FONT_EXTRA_INDEX` (an association list with string keys and values). -/
structure LispFontLike where
  family : Option String
  name : Option String
  size : Option ℤ
  extra : List (String × String)

/-- The scalar fields of the base `font` struct that `open` populates. -/
structure FontFields where
  pixel_size : ℤ
  average_width : ℤ
  ascent : ℤ
  descent : ℤ
  space_width : ℤ
  height : ℤ
  baseline_offset : ℤ

/-- The driver's extended font record (`WRFont`): the base `font` fields, the
webrender `FontKey` (modelled as the `ℕ` handed out by the backend counter)
and the loaded backend font.  The source struct also declares a `metrics`
field, but `open` never initializes it and nothing reads it, so it is not
modelled. -/
structure WRFont where
  font : FontFields
  font_key : ℕ
  font_backend : Font

/-- The slice of a frame the driver reads: `output.font`, the display's
currently configured font (`null` when none is configured yet). -/
structure Frame where
  output_font : Option FontFields

/-- The `font_metrics` output struct of `text_extents`; its C fields are
16-bit (`short`), which is why the driver casts with `as i16`. -/
structure TextMetrics where
  lbearing : ℤ
  rbearing : ℤ
  width : ℤ
  ascent : ℤ
  descent : ℤ

/-- Modelled from the spec: the reserved INVALID sentinel `FONT_INVALID_CODE`
imported from `remacs_sys` (the C layer, not part of the Rust source); its
concrete value is immaterial to every claim below. -/
def FONT_INVALID_CODE : ℕ := 4294967295

/-- Rust `str::replace("-", "\\-")` for the single-character pattern `"-"`:
each `-` in the string is replaced by the two characters `\-`. -/
def escape_hyphens (s : String) : String :=
  ⟨s.data.foldr (fun c acc => if c = '-' then '\\' :: '-' :: acc else c :: acc) []⟩

/-- `LispFontLike::get_family`: nil maps to `None`; the five generic family
strings map to the generic `FamilyName` classes; any other string becomes a
literal `Title` with every `-` escaped to `\-`. -/
def get_family (spec : LispFontLike) : Option FamilyName :=
  match spec.family with
  | none => none
  | some s =>
    if s = "Serif" then some FamilyName.Serif
    else if s = "Sans Serif" then some FamilyName.SansSerif
    else if s = "Monospace" then some FamilyName.Monospace
    else if s = "Cursive" then some FamilyName.Cursive
    else if s = "Fantasy" then some FamilyName.Fantasy
    else some (FamilyName.Title (escape_hyphens s))

/-- `match_`: resolve the spec's family, ask the system source for a best
match, load it, and build a one-entry entity list.  `Except.ok none` models
the `Qnil` empty result; the `expect` on a missing postscript name is a Rust
panic, modelled as `Except.error`.  `font_make_entity` leaves the size slot
nil, so the built entity carries `size := none`. -/
def match_ (_f : Frame) (src : SystemSource) (spec : LispFontLike) :
    Except String (Option LispFontLike) :=
  let family := get_family spec
  let font := (family.bind fun f => src.select_best_match f).bind fun h => h.load
  match font with
  | none => Except.ok none
  | some f =>
    match f.postscript_name with
    | none => Except.error "Font must have a postcript_name!"
    | some postscript_name =>
      Except.ok (some
        { family := some f.family_name
          name := some f.full_name
          size := none
          extra := [(":postscript-name", postscript_name)] })

/-- `list`: the driver's list entry point simply forwards to `match_`
(`// FIXME: implment the real list in future`). -/
def list (f : Frame) (src : SystemSource) (font_spec : LispFontLike) :
    Except String (Option LispFontLike) :=
  match_ f src font_spec

/-- The pixel-size resolution at the top of `open`: the entity's
`FONT_SIZE_INDEX` fixnum if present, else the `pixel_size` argument; if the
chosen value is zero, the display's configured font size, or 15 when the
display has no font configured yet. -/
def resolve_pixel_size (entity_size : Option ℤ) (pixel_size_arg : ℤ)
    (output_font : Option FontFields) : ℤ :=
  let ps := entity_size.getD pixel_size_arg
  if ps = 0 then
    match output_font with
    | some f => f.pixel_size
    | none => 15
  else ps

/-- `open`: resolve the pixel size, recover the `:postscript-name` entry from
the entity's extra alist (`error!` when missing — a non-returning signal,
modelled as `Except.error` with the source's message), re-resolve the font by
postscript name, allocate a webrender `FontKey`, load the backend font, read
its metrics and the advance of glyph 33, and populate the font object's
scalar fields.  Failed `unwrap`s on the external calls are panics, modelled
as distinct `Except.error`s at the same program points; note the key
allocation (`output.add_font`) happens before the `load` and `advance`
unwraps, so those panic paths leave an allocated key behind. -/
def open_ (src : SystemSource) (frame : Frame) (font_entity : LispFontLike)
    (pixel_size_arg : ℤ) (backend : ℕ) : Except String WRFont × ℕ :=
  let pixel_size := resolve_pixel_size font_entity.size pixel_size_arg frame.output_font
  match font_entity.extra.lookup ":postscript-name" with
  | none => (Except.error "postscript-name can not be found!", backend)
  | some postscript_name =>
    match src.select_by_postscript_name postscript_name with
    | none => (Except.error "panic: select_by_postscript_name failed", backend)
    | some handle =>
      let font_key := backend
      match handle.load with
      | none => (Except.error "panic: font load failed", backend + 1)
      | some f =>
        match f.advance 33 with
        | none => (Except.error "panic: no advance for glyph 33", backend + 1)
        | some font_advance =>
          let m := f.metrics
          let scale : ℚ := (pixel_size : ℚ) / (m.units_per_em : ℚ)
          let average_width := f32_as_i32 (font_advance.x * scale)
          let ascent := f32_round_as_i32 (scale * m.ascent)
          let descent := f32_round_as_i32 (-scale * m.descent)
          (Except.ok
            { font :=
              { pixel_size := i64_as_i32 pixel_size
                average_width := average_width
                ascent := ascent
                descent := descent
                space_width := average_width
                height := f32_round_as_i32 (scale * m.line_gap) + ascent + descent
                baseline_offset := 0 }
              font_key := font_key
              font_backend := f }, backend + 1)

/-- `char::from_u32`: `some` exactly on valid Unicode scalar values (below
`0x110000` and not a surrogate); characters are modelled by their scalar
values. -/
def char_from_u32 (u : ℕ) : Option ℕ :=
  if 55296 ≤ u ∧ u < 57344 then none
  else if u < 1114112 then some u
  else none

/-- `encode_char`: reinterpret the `i32` code as `u32`, convert to a
character, look its glyph up in the loaded backend font, and fall back to
`FONT_INVALID_CODE` when either step fails. -/
def encode_char (font : WRFont) (c : ℤ) : ℕ :=
  (((char_from_u32 (i32_as_u32 c)).bind fun ch =>
      font.font_backend.glyph_for_char ch).getD FONT_INVALID_CODE)

/-- `text_extents`: ignores the glyph run entirely and fills the (16-bit)
`font_metrics` struct with constants `10` for the bearings and the font
object's cached `average_width`/`ascent`/`descent`, each cast `as i16`. -/
def text_extents (font : WRFont) (_code : List ℕ) (_nglyphs : ℤ) : TextMetrics :=
  { lbearing := 10
    rbearing := 10
    width := i32_as_i16 font.font.average_width
    ascent := i32_as_i16 font.font.ascent
    descent := i32_as_i16 font.font.descent }

/-! Concrete fixtures used by witnesses and counterexamples: a system source
that always finds the same loadable font (design metrics from the spec's
Helvetica-Neue scenario: 1000 units per em, ascent 800, descent -200, no
line gap, and advance 500 for glyph 33). -/

/-- Concrete design-space metrics for the fixture font. -/
def cMetrics : Metrics :=
  { units_per_em := 1000, ascent := 800, descent := -200, line_gap := 0 }

/-- Concrete loaded fixture font; its glyph table is empty. -/
def cFont : Font :=
  { family_name := "Helvetica Neue"
    full_name := "Helvetica Neue"
    postscript_name := some "HelveticaNeue"
    metrics := cMetrics
    advance := fun g => if g = 33 then some { x := 500, y := 0 } else none
    glyph_for_char := fun _ => none }

/-- Concrete handle that loads the fixture font. -/
def cHandle : FontHandle := { load := some cFont }

/-- Concrete system source: every query (generic or literal, best-match or
by postscript name) succeeds with the fixture handle. -/
def cSrc : SystemSource :=
  { select_best_match := fun _ => some cHandle
    select_by_postscript_name := fun _ => some cHandle }

/-- Concrete entity carrying the fixture postscript name and no size slot. -/
def cEntity : LispFontLike :=
  { family := some "Helvetica Neue"
    name := none
    size := none
    extra := [(":postscript-name", "HelveticaNeue")] }

/-- Concrete frame whose display has no configured font. -/
def cFrame : Frame := { output_font := none }

/-- Concrete entity with no `:postscript-name` entry in its extra alist. -/
def eNoPs : LispFontLike :=
  { family := some "Helvetica Neue", name := none, size := none, extra := [] }

/-- A spec whose only populated slot is the family string. -/
def famSpec (s : String) : LispFontLike :=
  { family := some s, name := none, size := none, extra := [] }

/-- A spec with no family slot at all. -/
def noFamSpec : LispFontLike :=
  { family := none, name := none, size := none, extra := [] }

/-- The font object `open_` builds from the fixtures at requested pixel size
15: scale is 15/1000, so `average_width = trunc 7.5 = 7`, `ascent = 12`,
`descent = 3`, `height = 0 + 12 + 3`. -/
def cResult : WRFont :=
  { font :=
    { pixel_size := 15
      average_width := 7
      ascent := 12
      descent := 3
      space_width := 7
      height := 15
      baseline_offset := 0 }
    font_key := 0
    font_backend := cFont }

/-- Saturation is the identity inside the signed 32-bit range. -/
theorem i32Sat_of_range (z : ℤ) (h1 : -(2 ^ 31) ≤ z) (h2 : z ≤ 2 ^ 31 - 1) :
    i32Sat z = z := by
  unfold i32Sat
  rw [min_eq_right h2, max_eq_right h1]

/-- The `i16` wrap is the identity inside the signed 16-bit range. -/
theorem i32_as_i16_of_range (z : ℤ) (h1 : -(2 ^ 15) ≤ z) (h2 : z < 2 ^ 15) :
    i32_as_i16 z = z := by
  unfold i32_as_i16
  rw [Int.emod_eq_of_lt (by omega) (by omega)]
  omega

/-- Characterization of a successful `open_`: when the postscript entry, the
re-resolution, the load and the advance of glyph 33 all succeed, `open_`
returns the fully populated font object and bumps the backend key counter. -/
theorem open_spec (src : SystemSource) (fr : Frame) (e : LispFontLike) (a : ℤ)
    (b : ℕ) (ps : String) (hps : e.extra.lookup ":postscript-name" = some ps)
    (hd : FontHandle) (hsel : src.select_by_postscript_name ps = some hd)
    (f : Font) (hload : hd.load = some f)
    (adv : Vec2) (hadv : f.advance 33 = some adv) :
    open_ src fr e a b =
      (Except.ok
        { font :=
          { pixel_size := i64_as_i32 (resolve_pixel_size e.size a fr.output_font)
            average_width := f32_as_i32 (adv.x *
              ((resolve_pixel_size e.size a fr.output_font : ℚ) /
                (f.metrics.units_per_em : ℚ)))
            ascent := f32_round_as_i32
              (((resolve_pixel_size e.size a fr.output_font : ℚ) /
                (f.metrics.units_per_em : ℚ)) * f.metrics.ascent)
            descent := f32_round_as_i32
              (-((resolve_pixel_size e.size a fr.output_font : ℚ) /
                (f.metrics.units_per_em : ℚ)) * f.metrics.descent)
            space_width := f32_as_i32 (adv.x *
              ((resolve_pixel_size e.size a fr.output_font : ℚ) /
                (f.metrics.units_per_em : ℚ)))
            height := f32_round_as_i32
              (((resolve_pixel_size e.size a fr.output_font : ℚ) /
                (f.metrics.units_per_em : ℚ)) * f.metrics.line_gap) +
              f32_round_as_i32
                (((resolve_pixel_size e.size a fr.output_font : ℚ) /
                  (f.metrics.units_per_em : ℚ)) * f.metrics.ascent) +
              f32_round_as_i32
                (-((resolve_pixel_size e.size a fr.output_font : ℚ) /
                  (f.metrics.units_per_em : ℚ)) * f.metrics.descent)
            baseline_offset := 0 }
          font_key := b
          font_backend := f }, b + 1) := by
  simp only [open_, hps, hsel, hload, hadv]

/-- Evaluation of `open_` on the fixtures at requested pixel size 15. -/
theorem cOpen_eq : open_ cSrc cFrame cEntity 15 0 = (Except.ok cResult, 1) := by
  have h := open_spec cSrc cFrame cEntity 15 0 "HelveticaNeue" rfl cHandle rfl
    cFont rfl ⟨500, 0⟩ rfl
  rw [h]
  have hres : resolve_pixel_size cEntity.size 15 cFrame.output_font = 15 := rfl
  norm_num [hres, cResult, cFont, cMetrics, f32_as_i32, f32_round_as_i32,
    ratTrunc, ratRound, i32Sat, i64_as_i32, min_def, max_def]

/-- Inversion of a successful `open_`: every `Except.ok` result was built by
the final branch, so its fields satisfy the stored-metric equations and the
backend counter was bumped exactly once. -/
theorem open_ok_inv (src : SystemSource) (fr : Frame) (e : LispFontLike)
    (a : ℤ) (b : ℕ) (fo : WRFont) (b2 : ℕ)
    (h : open_ src fr e a b = (Except.ok fo, b2)) :
    ∃ adv, fo.font_backend.advance 33 = some adv ∧
      fo.font.average_width = f32_as_i32 (adv.x *
        ((resolve_pixel_size e.size a fr.output_font : ℚ) /
          (fo.font_backend.metrics.units_per_em : ℚ))) ∧
      fo.font.ascent = f32_round_as_i32
        (((resolve_pixel_size e.size a fr.output_font : ℚ) /
          (fo.font_backend.metrics.units_per_em : ℚ)) *
          fo.font_backend.metrics.ascent) ∧
      fo.font.descent = f32_round_as_i32
        (-((resolve_pixel_size e.size a fr.output_font : ℚ) /
          (fo.font_backend.metrics.units_per_em : ℚ)) *
          fo.font_backend.metrics.descent) ∧
      fo.font.space_width = fo.font.average_width ∧
      fo.font.height = f32_round_as_i32
        (((resolve_pixel_size e.size a fr.output_font : ℚ) /
          (fo.font_backend.metrics.units_per_em : ℚ)) *
          fo.font_backend.metrics.line_gap) + fo.font.ascent + fo.font.descent ∧
      fo.font_key = b ∧ b2 = b + 1 := by
  rcases hlk : e.extra.lookup ":postscript-name" with _ | ps
  · simp [open_, hlk] at h
  · rcases hsel : src.select_by_postscript_name ps with _ | hd
    · simp [open_, hlk, hsel] at h
    · rcases hload : hd.load with _ | f
      · simp [open_, hlk, hsel, hload] at h
      · rcases hadv : f.advance 33 with _ | adv
        · simp [open_, hlk, hsel, hload, hadv] at h
        · rw [open_spec src fr e a b ps hlk hd hsel f hload adv hadv] at h
          simp only [Prod.mk.injEq, Except.ok.injEq] at h
          obtain ⟨hfo, hb⟩ := h
          subst hfo
          exact ⟨adv, hadv, rfl, rfl, rfl, rfl, rfl, rfl, hb.symm⟩

/-- C1 counterexample: at a concrete successful `open_` call (fixture font at
requested pixel size 15, so `advance.x * scale = 7.5`), the code stores
`average_width = 7` (truncation), while rounding would give `8`: the claim
`average_width = round(advance.x * scale)` is false. -/
theorem average_width_rounding_cex :
    ((open_ cSrc cFrame cEntity 15 0).1.toOption.map fun fo =>
        fo.font.average_width) = some 7 ∧
      f32_round_as_i32 ((500 : ℚ) * ((15 : ℚ) / 1000)) = 8 := by
  constructor
  · rw [cOpen_eq]
    rfl
  · norm_num [f32_round_as_i32, ratRound, i32Sat, min_def, max_def]

/-- C1 (amended): for every successful call to `open_`, the computed
`average_width` equals `advance.x * scale` truncated toward zero (the Rust
float `as i32` cast), not rounded, where `advance` is the advance of glyph 33
in the loaded resource and `scale` is the resolved pixel size divided by
`units_per_em`. -/
theorem open_average_width_truncation (src : SystemSource) (fr : Frame)
    (e : LispFontLike) (a : ℤ) (b : ℕ) (fo : WRFont) (b2 : ℕ) (adv : Vec2)
    (h : open_ src fr e a b = (Except.ok fo, b2))
    (hadv : fo.font_backend.advance 33 = some adv) :
    fo.font.average_width = f32_as_i32 (adv.x *
      ((resolve_pixel_size e.size a fr.output_font : ℚ) /
        (fo.font_backend.metrics.units_per_em : ℚ))) := by
  obtain ⟨adv2, hadv2, heq, _⟩ := open_ok_inv src fr e a b fo b2 h
  rw [hadv2] at hadv
  rw [Option.some.injEq] at hadv
  rw [hadv] at heq
  exact heq

/-- C1 witness: the amended statement evaluated at the fixture call. -/
theorem open_average_width_truncation_witness :
    cResult.font.average_width = f32_as_i32 ((500 : ℚ) *
      ((resolve_pixel_size cEntity.size 15 cFrame.output_font : ℚ) /
        (cResult.font_backend.metrics.units_per_em : ℚ))) :=
  open_average_width_truncation cSrc cFrame cEntity 15 0 cResult 1 ⟨500, 0⟩
    cOpen_eq rfl

/-- C2: every font object successfully constructed by `open_` satisfies
`height = ascent + descent + round(scale * line_gap)` and
`space_width = average_width`, with `ascent = round(scale * metrics.ascent)`
and `descent = round(-scale * metrics.descent)` (`round` being the code's
`.round() as i32` conversion). -/
theorem open_metrics_invariant (src : SystemSource) (fr : Frame)
    (e : LispFontLike) (a : ℤ) (b : ℕ) (fo : WRFont) (b2 : ℕ)
    (h : open_ src fr e a b = (Except.ok fo, b2)) :
    fo.font.height = fo.font.ascent + fo.font.descent + f32_round_as_i32
        (((resolve_pixel_size e.size a fr.output_font : ℚ) /
          (fo.font_backend.metrics.units_per_em : ℚ)) *
          fo.font_backend.metrics.line_gap) ∧
      fo.font.space_width = fo.font.average_width ∧
      fo.font.ascent = f32_round_as_i32
        (((resolve_pixel_size e.size a fr.output_font : ℚ) /
          (fo.font_backend.metrics.units_per_em : ℚ)) *
          fo.font_backend.metrics.ascent) ∧
      fo.font.descent = f32_round_as_i32
        (-((resolve_pixel_size e.size a fr.output_font : ℚ) /
          (fo.font_backend.metrics.units_per_em : ℚ)) *
          fo.font_backend.metrics.descent) := by
  obtain ⟨adv, _, _, hasc, hdesc, hsw, hht, _⟩ := open_ok_inv src fr e a b fo b2 h
  refine ⟨?_, hsw, hasc, hdesc⟩
  rw [hht]
  ring

/-- C2 witness: the invariant evaluated at the fixture call. -/
theorem open_metrics_invariant_witness :
    cResult.font.height = cResult.font.ascent + cResult.font.descent +
        f32_round_as_i32
          (((resolve_pixel_size cEntity.size 15 cFrame.output_font : ℚ) /
            (cResult.font_backend.metrics.units_per_em : ℚ)) *
            cResult.font_backend.metrics.line_gap) ∧
      cResult.font.space_width = cResult.font.average_width ∧
      cResult.font.ascent = f32_round_as_i32
        (((resolve_pixel_size cEntity.size 15 cFrame.output_font : ℚ) /
          (cResult.font_backend.metrics.units_per_em : ℚ)) *
          cResult.font_backend.metrics.ascent) ∧
      cResult.font.descent = f32_round_as_i32
        (-((resolve_pixel_size cEntity.size 15 cFrame.output_font : ℚ) /
          (cResult.font_backend.metrics.units_per_em : ℚ)) *
          cResult.font_backend.metrics.descent) :=
  open_metrics_invariant cSrc cFrame cEntity 15 0 cResult 1 cOpen_eq

/-- C3 counterexample: the family string `"SansSerif"` (as spelled by the
claim) is not one of the strings the code recognizes — the code matches
`"Sans Serif"` with a space — so it is passed as a literal title, not as the
generic SansSerif class. -/
theorem get_family_sans_serif_cex :
    get_family (famSpec "SansSerif") = some (FamilyName.Title "SansSerif") ∧
      FamilyName.Title "SansSerif" ≠ FamilyName.SansSerif := by
  exact ⟨by decide, by decide⟩

/-- C3 (amended): the five generic family strings the driver recognizes are
`"Serif"`, `"Sans Serif"` (with a space, not `"SansSerif"`), `"Monospace"`,
`"Cursive"` and `"Fantasy"`, each mapped to the corresponding generic class;
every other family string is passed as a literal title with every `-`
replaced by `\-`. -/
theorem get_family_mapping (s : String) :
    get_family (famSpec "Serif") = some FamilyName.Serif ∧
    get_family (famSpec "Sans Serif") = some FamilyName.SansSerif ∧
    get_family (famSpec "Monospace") = some FamilyName.Monospace ∧
    get_family (famSpec "Cursive") = some FamilyName.Cursive ∧
    get_family (famSpec "Fantasy") = some FamilyName.Fantasy ∧
    (s ≠ "Serif" → s ≠ "Sans Serif" → s ≠ "Monospace" → s ≠ "Cursive" →
      s ≠ "Fantasy" →
      get_family (famSpec s) = some (FamilyName.Title (escape_hyphens s))) := by
  refine ⟨by decide, by decide, by decide, by decide, by decide,
    fun h1 h2 h3 h4 h5 => ?_⟩
  simp [get_family, famSpec, h1, h2, h3, h4, h5]

/-- C3 witness: a hyphenated literal family title gets its hyphen escaped. -/
theorem get_family_mapping_witness :
    get_family (famSpec "Liberation-Mono") =
        some (FamilyName.Title (escape_hyphens "Liberation-Mono")) ∧
      escape_hyphens "Liberation-Mono" = "Liberation\\-Mono" := by
  refine ⟨(get_family_mapping "Liberation-Mono").2.2.2.2.2 (by decide)
    (by decide) (by decide) (by decide) (by decide), by decide⟩

/-- C4: when the entity's extra alist has no `:postscript-name` entry, `open_`
reports the "postscript-name can not be found!" error to the caller and
produces no font object. -/
theorem open_missing_postscript (src : SystemSource) (fr : Frame)
    (e : LispFontLike) (a : ℤ) (b : ℕ)
    (h : e.extra.lookup ":postscript-name" = none) :
    open_ src fr e a b = (Except.error "postscript-name can not be found!", b) := by
  simp only [open_, h]

/-- C4 witness: the error at a concrete entity with an empty extra alist. -/
theorem open_missing_postscript_witness :
    open_ cSrc cFrame eNoPs 15 0 =
      (Except.error "postscript-name can not be found!", 0) :=
  open_missing_postscript cSrc cFrame eNoPs 15 0 rfl

/-- C5 (amended): `text_extents` ignores the glyph run and returns
`lbearing = rbearing = 10` and the font object's `average_width`, `ascent`
and `descent` each truncated `as i16`; the claimed equalities with the
untruncated fields hold exactly when those fields fit in the signed 16-bit
range. -/
theorem text_extents_uniform (fo : WRFont) (code : List ℕ) (n : ℤ) :
    (text_extents fo code n).lbearing = 10 ∧
    (text_extents fo code n).rbearing = 10 ∧
    (text_extents fo code n).width = i32_as_i16 fo.font.average_width ∧
    (text_extents fo code n).ascent = i32_as_i16 fo.font.ascent ∧
    (text_extents fo code n).descent = i32_as_i16 fo.font.descent ∧
    (-(2 ^ 15) ≤ fo.font.average_width → fo.font.average_width < 2 ^ 15 →
      (text_extents fo code n).width = fo.font.average_width) ∧
    (-(2 ^ 15) ≤ fo.font.ascent → fo.font.ascent < 2 ^ 15 →
      (text_extents fo code n).ascent = fo.font.ascent) ∧
    (-(2 ^ 15) ≤ fo.font.descent → fo.font.descent < 2 ^ 15 →
      (text_extents fo code n).descent = fo.font.descent) :=
  ⟨rfl, rfl, rfl, rfl, rfl,
    fun h1 h2 => i32_as_i16_of_range _ h1 h2,
    fun h1 h2 => i32_as_i16_of_range _ h1 h2,
    fun h1 h2 => i32_as_i16_of_range _ h1 h2⟩

/-- C5 witness: on the fixture font object (all metrics small) the claimed
equalities hold for a nonempty run. -/
theorem text_extents_uniform_witness :
    (text_extents cResult [1, 2, 3] 3).width = cResult.font.average_width ∧
      (text_extents cResult [1, 2, 3] 3).lbearing = 10 :=
  ⟨(text_extents_uniform cResult [1, 2, 3] 3).2.2.2.2.2.1 (by decide) (by decide),
    (text_extents_uniform cResult [1, 2, 3] 3).1⟩

/-- C5 counterexample: a font object produced by a genuine `open_` call
(fixture font at requested pixel size 131072, giving `average_width = 65536`)
has `text_extents` width `0` — the `as i16` cast wraps — so
`width = average_width` fails. -/
theorem text_extents_width_cex :
    ((open_ cSrc cFrame cEntity 131072 0).1.toOption.map fun fo =>
        ((text_extents fo [] 0).width, fo.font.average_width)) =
      some (0, 65536) ∧ (0 : ℤ) ≠ 65536 := by
  have h := open_spec cSrc cFrame cEntity 131072 0 "HelveticaNeue" rfl cHandle
    rfl cFont rfl ⟨500, 0⟩ rfl
  constructor
  · rw [h]
    have hres : resolve_pixel_size cEntity.size 131072 cFrame.output_font
        = 131072 := rfl
    norm_num [hres, cFont, cMetrics, text_extents, f32_as_i32, ratTrunc,
      i32Sat, i32_as_i16, min_def, max_def, Except.toOption]
  · decide

/-- C6: `encode_char` returns the `FONT_INVALID_CODE` sentinel for every code
whose `u32` reinterpretation is not a valid Unicode scalar value, and for
every valid one whose character has no glyph in the loaded resource. -/
theorem encode_char_invalid (fo : WRFont) (c : ℤ)
    (h : char_from_u32 (i32_as_u32 c) = none ∨
      ∃ u, char_from_u32 (i32_as_u32 c) = some u ∧
        fo.font_backend.glyph_for_char u = none) :
    encode_char fo c = FONT_INVALID_CODE := by
  rcases h with h | ⟨u, hu, hg⟩
  · simp [encode_char, h]
  · simp [encode_char, hu, hg]

/-- C6 witness: a surrogate code point (0xD800) and a valid code point with
no glyph in the fixture font both encode to the sentinel. -/
theorem encode_char_invalid_witness :
    encode_char cResult 55296 = FONT_INVALID_CODE ∧
      encode_char cResult 97 = FONT_INVALID_CODE :=
  ⟨encode_char_invalid cResult 55296 (Or.inl (by decide)),
    encode_char_invalid cResult 97 (Or.inr ⟨97, by decide, rfl⟩)⟩

/-- C7: `open_` resolves the effective pixel size as the entity's explicit
size attribute if present, else the `pixel_size` argument; a zero value falls
back to the display's configured font size, or 15 when the display has no
font configured. -/
theorem open_resolves_pixel_size (v a : ℤ) (es : Option ℤ)
    (of : Option FontFields) (f : FontFields) :
    (es = some v → v ≠ 0 → resolve_pixel_size es a of = v) ∧
    (es = none → a ≠ 0 → resolve_pixel_size es a of = a) ∧
    (es.getD a = 0 → of = some f → resolve_pixel_size es a of = f.pixel_size) ∧
    (es.getD a = 0 → of = none → resolve_pixel_size es a of = 15) := by
  refine ⟨fun h1 h2 => ?_, fun h1 h2 => ?_, fun h1 h2 => ?_, fun h1 h2 => ?_⟩ <;>
    simp [resolve_pixel_size, h1, h2]

/-- C7 witness: the four resolution branches at concrete inputs, including
the spec scenario (no explicit size, requested size 0, no display font → 15). -/
theorem open_resolves_pixel_size_witness :
    resolve_pixel_size (some 7) 0 none = 7 ∧
    resolve_pixel_size none 9 none = 9 ∧
    resolve_pixel_size none 0 (some cResult.font) = cResult.font.pixel_size ∧
    resolve_pixel_size none 0 none = 15 :=
  ⟨(open_resolves_pixel_size 7 0 (some 7) none cResult.font).1 rfl (by decide),
    (open_resolves_pixel_size 9 9 none none cResult.font).2.1 rfl (by decide),
    (open_resolves_pixel_size 0 0 none (some cResult.font)
      cResult.font).2.2.1 rfl rfl,
    (open_resolves_pixel_size 0 0 none none cResult.font).2.2.2 rfl rfl⟩

/-- C8: for every specification without a family, `match_` returns the empty
result for every system source — in particular for a source whose matcher
succeeds on every query — so the matcher is never consulted. -/
theorem match_no_family (fr : Frame) (src : SystemSource) (spec : LispFontLike)
    (h : spec.family = none) : match_ fr src spec = Except.ok none := by
  simp [match_, get_family, h]

/-- C8 witness: the family-less spec against the fixture source, whose
best-match query succeeds on every family pattern. -/
theorem match_no_family_witness : match_ cFrame cSrc noFamSpec = Except.ok none :=
  match_no_family cFrame cSrc noFamSpec rfl

/-- C9: `list` returns exactly the result of `match_` on the same frame,
source and specification. -/
theorem list_eq_match (fr : Frame) (src : SystemSource) (spec : LispFontLike) :
    list fr src spec = match_ fr src spec := rfl

/-- C10: whenever `open_` fails with the missing-postscript-name error, the
backend key counter is returned unchanged: the check precedes the
`add_font` registration, so no webrender font key was allocated. -/
theorem open_missing_postscript_no_key (src : SystemSource) (fr : Frame)
    (e : LispFontLike) (a : ℤ) (b b2 : ℕ)
    (h : open_ src fr e a b =
      (Except.error "postscript-name can not be found!", b2)) :
    b2 = b := by
  rcases hlk : e.extra.lookup ":postscript-name" with _ | ps
  · simp [open_, hlk] at h
    omega
  · rcases hsel : src.select_by_postscript_name ps with _ | hd
    · simp only [open_, hlk, hsel, Prod.mk.injEq, Except.error.injEq] at h
      exact absurd h.1 (by decide)
    · rcases hload : hd.load with _ | f
      · simp only [open_, hlk, hsel, hload, Prod.mk.injEq, Except.error.injEq] at h
        exact absurd h.1 (by decide)
      · rcases hadv : f.advance 33 with _ | adv
        · simp only [open_, hlk, hsel, hload, hadv, Prod.mk.injEq,
            Except.error.injEq] at h
          exact absurd h.1 (by decide)
        · rw [open_spec src fr e a b ps hlk hd hsel f hload adv hadv] at h
          simp only [Prod.mk.injEq] at h
          exact absurd h.1 (fun hc => Except.noConfusion hc)

/-- C10 witness: at a concrete entity with no postscript entry, the backend
counter after the failing `open_` equals the counter before. -/
theorem open_missing_postscript_no_key_witness :
    (1 : ℕ) = 1 ∧ (open_ cSrc cFrame eNoPs 15 1).2 = 1 := by
  have h2 : open_ cSrc cFrame eNoPs 15 1 =
      (Except.error "postscript-name can not be found!", (open_ cSrc cFrame eNoPs 15 1).2) := rfl
  exact ⟨rfl, open_missing_postscript_no_key cSrc cFrame eNoPs 15 1
    (open_ cSrc cFrame eNoPs 15 1).2 h2⟩

end Remacs
